import Mathlib

/-!
Verification of the Sports Highlight Recorder (src/main.py) against its
natural-language specification.

The script keeps a rolling buffer of camera frames in a `collections.deque`
and, on a button press, writes the buffered frames to a video file.  This
file shallowly embeds the relevant parts of the script: the frame buffer is
a Lean `List` (oldest frame first; `append` models `deque.append` at the
tail, `drop 1` models `deque.popleft` at the head), one iteration of the
recording loop is a pure step function, and `save_highlight` is a pure
function from the buffer snapshot, the formatted wall-clock timestamp and an
encoder behaviour to an outcome record.
-/

namespace RallyReels

/-- Configuration constant BUFFER_SECONDS = 120 from SportsHighlightRecorder.__init__. -/
def BUFFER_SECONDS : Nat := 120

/-- Configuration constant FPS = 15 from SportsHighlightRecorder.__init__. -/
def FPS : Nat := 15

/-- Configuration constant HIGHLIGHTS_DIR from SportsHighlightRecorder.__init__. -/
def HIGHLIGHTS_DIR : String := "/home/enigma/sports-recorder/highlights"

/-- Buffer capacity: self.max_buffer_size = self.BUFFER_SECONDS * self.FPS. -/
def max_buffer_size : Nat := BUFFER_SECONDS * FPS

variable {α : Type}

/-- One push into the frame buffer, as performed by recording_loop
(src/main.py lines 115-119): `self.frame_buffer.append(...)` followed by
`if len(self.frame_buffer) > self.max_buffer_size: self.frame_buffer.popleft()`.
The list is oldest-first, so append is at the tail and popleft drops the head. -/
def pushFrame (cap : Nat) (buf : List α) (fr : α) : List α :=
  if (buf ++ [fr]).length > cap then (buf ++ [fr]).drop 1 else buf ++ [fr]

/-- Folding a whole sequence of pushes into an initially empty buffer,
modelling the recording loop pushing frames in capture order. -/
def pushAll (cap : Nat) (fs : List α) : List α :=
  fs.foldl (pushFrame cap) []

theorem pushFrame_length_le (cap : Nat) (buf : List α) (fr : α)
    (h : buf.length ≤ cap) : (pushFrame cap buf fr).length ≤ cap := by
  by_cases hc : (buf ++ [fr]).length > cap
  · rw [pushFrame, if_pos hc]
    simp
    simp at hc
    omega
  · rw [pushFrame, if_neg hc]
    simp at hc ⊢
    omega

theorem foldl_pushFrame (cap : Nat) (fs : List α) :
    ∀ buf : List α, buf.length ≤ cap →
      fs.foldl (pushFrame cap) buf = (buf ++ fs).drop (buf.length + fs.length - cap) := by
  induction fs with
  | nil =>
    intro buf h
    simp [Nat.sub_eq_zero_of_le h]
  | cons f fs ih =>
    intro buf h
    show fs.foldl (pushFrame cap) (pushFrame cap buf f) = _
    rw [ih (pushFrame cap buf f) (pushFrame_length_le cap buf f h)]
    by_cases hc : (buf ++ [f]).length > cap
    · rw [pushFrame, if_pos hc]
      have hlen : ((buf ++ [f]).drop 1).length = buf.length := by
        simp
      rw [hlen]
      have h1 : (1 : Nat) ≤ (buf ++ [f]).length := by simp
      rw [← List.drop_append_of_le_length h1, List.drop_drop]
      have harr : buf ++ [f] ++ fs = buf ++ f :: fs := by
        simp
      rw [harr]
      have hcap : buf.length = cap := by
        simp at hc
        omega
      congr 1
      simp only [List.length_cons, List.length_append, List.length_nil]
      omega
    · rw [pushFrame, if_neg hc]
      have harr : buf ++ [f] ++ fs = buf ++ f :: fs := by
        simp
      rw [harr]
      congr 1
      simp only [List.length_cons, List.length_append, List.length_nil]
      omega

/-- Characterisation of the buffer after any sequence of pushes: it is
exactly the suffix of the pushed sequence of length min N cap. -/
theorem pushAll_eq_drop (cap : Nat) (fs : List α) :
    pushAll cap fs = fs.drop (fs.length - cap) := by
  unfold pushAll
  rw [foldl_pushFrame cap fs [] (by simp)]
  simp

theorem pushAll_length (cap : Nat) (fs : List α) :
    (pushAll cap fs).length = min fs.length cap := by
  rw [pushAll_eq_drop]
  simp
  omega

/-- C1: for every sequence of N pushes into the frame buffer with capacity
max_buffer_size = BUFFER_SECONDS * FPS, occupancy after the Nth push is
min N capacity, and the retained frames are exactly the most recent
capacity-many pushed frames (the suffix of the push sequence), appended at
the tail and evicted from the head. -/
theorem c1_buffer_occupancy_and_retention (fs : List α) :
    (pushAll max_buffer_size fs).length = min fs.length max_buffer_size ∧
    pushAll max_buffer_size fs = fs.drop (fs.length - max_buffer_size) ∧
    max_buffer_size = BUFFER_SECONDS * FPS := by
  exact ⟨pushAll_length _ fs, pushAll_eq_drop _ fs, rfl⟩

theorem drop_range (m s n : Nat) :
    (List.range' s n).drop m = List.range' (s + m) (n - m) := by
  induction m generalizing s n with
  | zero => simp
  | succ m ih =>
    cases n with
    | zero => simp
    | succ n =>
      rw [List.range'_succ, List.drop_succ_cons, ih]
      have h1 : s + 1 + m = s + (m + 1) := by omega
      have h2 : n - m = n + 1 - (m + 1) := by omega
      rw [h1, h2]

/-- C2: for every K at least the capacity, the snapshot taken right after the
Kth push of frames with sequence numbers 1..K holds exactly the frames with
sequence numbers in the half-open interval from K minus capacity (exclusive)
to K (inclusive), in strictly increasing order, with occupancy equal to the
capacity. -/
theorem c2_snapshot_window (K : Nat) (h : max_buffer_size ≤ K) :
    pushAll max_buffer_size (List.range' 1 K) =
      List.range' (K - max_buffer_size + 1) max_buffer_size ∧
    (pushAll max_buffer_size (List.range' 1 K)).length = max_buffer_size ∧
    (pushAll max_buffer_size (List.range' 1 K)).Pairwise (· < ·) := by
  have hlen : (List.range' 1 K).length = K := by simp
  have hmain : pushAll max_buffer_size (List.range' 1 K) =
      List.range' (K - max_buffer_size + 1) max_buffer_size := by
    rw [pushAll_eq_drop, hlen, drop_range]
    have h1 : 1 + (K - max_buffer_size) = K - max_buffer_size + 1 := by omega
    have h2 : K - (K - max_buffer_size) = max_buffer_size := by omega
    rw [h1, h2]
  refine ⟨hmain, ?_, ?_⟩
  · rw [hmain]
    simp
  · rw [hmain]
    exact List.pairwise_lt_range' _ _

/-- Witness for c2_snapshot_window: the concrete scenario with capacity 1800
frames (120 seconds at 15 fps): after pushes 1..1800 the snapshot is frames
1..1800; after one more push it is frames 2..1801 with occupancy still 1800. -/
theorem c2_snapshot_window_witness :
    pushAll 1800 (List.range' 1 1800) = List.range' 1 1800 ∧
    pushAll 1800 (List.range' 1 1801) = List.range' 2 1800 ∧
    (pushAll 1800 (List.range' 1 1801)).length = 1800 := by
  obtain ⟨a1, b1, -⟩ := c2_snapshot_window 1800 (by decide)
  obtain ⟨a2, b2, -⟩ := c2_snapshot_window 1801 (by decide)
  have hcap : max_buffer_size = 1800 := by decide
  rw [hcap] at a1 b1 a2 b2
  norm_num at a1 a2
  exact ⟨a1, a2, b2⟩

/-- Behaviour of the external video writer (cv2.VideoWriter): whether it
opens (out.isOpened()) and whether the i-th out.write call succeeds.  The
script never inspects the result of out.write. -/
structure Encoder where
  opens : Bool
  writeOk : Nat → Bool

/-- Outcome reported by save_highlight: the early return printing "ERROR: No
frames in buffer to save!", the early return printing "ERROR: Could not open
video writer!", or the success report carrying frames_written and the
reported duration. -/
inductive SaveResult where
  | emptyBuffer : SaveResult
  | openFailed : SaveResult
  | saved : Nat → ℚ → SaveResult

/-- Observable effects of one save_highlight call: the reported result,
whether a cv2.VideoWriter was constructed, and the file left on disk under
its final path together with the frames the encoder actually persisted. -/
structure SaveOutcome (α : Type) where
  result : SaveResult
  encoderOpened : Bool
  fileWritten : Option (String × List α)

/-- Output file name built in save_highlight from the formatted wall-clock
timestamp: f-string "highlight_{timestamp}.avi" with no disambiguation. -/
def savedFilename (ts : String) : String := "highlight_" ++ ts ++ ".avi"

/-- Full output path: os.path.join(self.HIGHLIGHTS_DIR, filename). -/
def savedFilepath (ts : String) : String := HIGHLIGHTS_DIR ++ "/" ++ savedFilename ts

/-- Reported duration: frames_written / self.FPS, modelled exactly over ℚ. -/
def reportedDuration (n : Nat) : ℚ := (n : ℚ) / (FPS : ℚ)

/-- Shallow embedding of save_highlight (src/main.py lines 136-174) as a
function of the buffer snapshot, the formatted timestamp and the encoder
behaviour.  The empty check precedes writer creation; an unopened writer
aborts with no file; otherwise every snapshot frame is passed to out.write
with the result discarded, frames_written counts every frame regardless,
and the file sits directly under its final path holding whichever frames
the writer persisted. -/
def save_highlight (buf : List α) (ts : String) (enc : Encoder) : SaveOutcome α :=
  if buf.length = 0 then
    ⟨SaveResult.emptyBuffer, false, none⟩
  else if enc.opens = false then
    ⟨SaveResult.openFailed, true, none⟩
  else
    ⟨SaveResult.saved buf.length (reportedDuration buf.length), true,
      some (savedFilepath ts,
        (buf.enum.filter (fun p => enc.writeOk p.1)).map (fun p => p.2))⟩

/-- C5: exporting with an empty buffer snapshot reports the explicit
empty-buffer error before any encoder object is created: the encoder is
never invoked and no file is created. -/
theorem c5_empty_buffer (buf : List α) (ts : String) (enc : Encoder)
    (h : buf = []) :
    save_highlight buf ts enc = ⟨SaveResult.emptyBuffer, false, none⟩ := by
  subst h
  rfl

/-- Witness for c5_empty_buffer at a concrete empty snapshot. -/
theorem c5_empty_buffer_witness :
    save_highlight ([] : List Nat) "20260101_120000" ⟨true, fun _ => true⟩ =
      ⟨SaveResult.emptyBuffer, false, none⟩ :=
  c5_empty_buffer [] "20260101_120000" ⟨true, fun _ => true⟩ rfl

/-- C9: every successful export reporting frames_written = F and duration d
satisfies d = F / FPS exactly, and F is the snapshot length, so the reported
duration round-trips with the written frame count. -/
theorem c9_duration_roundtrip (buf : List α) (ts : String) (enc : Encoder)
    (F : Nat) (d : ℚ)
    (h : (save_highlight buf ts enc).result = SaveResult.saved F d) :
    d = (F : ℚ) / (FPS : ℚ) ∧ F = buf.length := by
  unfold save_highlight at h
  by_cases h0 : buf.length = 0
  · rw [if_pos h0] at h
    simp at h
  · rw [if_neg h0] at h
    by_cases ho : enc.opens = false
    · rw [if_pos ho] at h
      simp at h
    · rw [if_neg ho] at h
      simp only [SaveResult.saved.injEq] at h
      obtain ⟨hF, hd⟩ := h
      subst hF
      exact ⟨hd.symm, rfl⟩

/-- Witness for c9_duration_roundtrip on a concrete three-frame export. -/
theorem c9_duration_roundtrip_witness :
    reportedDuration 3 = ((3 : Nat) : ℚ) / (FPS : ℚ) ∧ (3 : Nat) = 3 :=
  c9_duration_roundtrip [10, 20, 30] "t" ⟨true, fun _ => true⟩ 3
    (reportedDuration 3) rfl

/-- C7 counterexample: with an encoder that opens but whose every write call
fails, save_highlight on a one-frame snapshot still reports success
(saved 1 frame, duration 1/FPS) and leaves a file under its final output
path persisting zero frames — no EncodeError is reported and the partial
file is visible under the final name. -/
theorem c7_partial_file_counterexample :
    (save_highlight [0] "20260101_120000" ⟨true, fun _ => false⟩).result =
      SaveResult.saved 1 (reportedDuration 1) ∧
    (save_highlight [0] "20260101_120000" ⟨true, fun _ => false⟩).fileWritten =
      some (savedFilepath "20260101_120000", ([] : List Nat)) :=
  ⟨rfl, rfl⟩

/-- C7 amended: if the writer fails to open, the export aborts with the
open-failure report and writes no file, non-fatally; but mid-write encoder
failures are undetected — write results are discarded, the export always
reports success with frames_written equal to the snapshot length, and the
output (however incomplete) is left directly under its final path. -/
theorem c7_encode_failure_amended (buf : List α) (ts : String) (enc : Encoder)
    (h : buf ≠ []) :
    (enc.opens = false →
      save_highlight buf ts enc = ⟨SaveResult.openFailed, true, none⟩) ∧
    (enc.opens = true →
      (save_highlight buf ts enc).result =
        SaveResult.saved buf.length (reportedDuration buf.length) ∧
      ∃ content, (save_highlight buf ts enc).fileWritten =
        some (savedFilepath ts, content)) := by
  have h0 : ¬ buf.length = 0 := by
    simpa [List.length_eq_zero] using h
  constructor
  · intro ho
    unfold save_highlight
    rw [if_neg h0, if_pos ho]
  · intro ho
    unfold save_highlight
    rw [if_neg h0, if_neg (by simp [ho])]
    exact ⟨rfl, _, rfl⟩

/-- Witness for c7_encode_failure_amended on a concrete one-frame snapshot
with an encoder whose writes all fail. -/
theorem c7_encode_failure_amended_witness :
    (save_highlight [0] "t" (⟨true, fun _ => false⟩ : Encoder)).result =
      SaveResult.saved 1 (reportedDuration 1) ∧
    ∃ content, (save_highlight [0] "t" (⟨true, fun _ => false⟩ : Encoder)).fileWritten =
      some (savedFilepath "t", content) :=
  (c7_encode_failure_amended [0] "t" ⟨true, fun _ => false⟩ (by simp)).2 rfl

/-- C3: the output name contains no disambiguating counter, so two exports
triggered in the same wall-clock second (identical formatted timestamp)
write under the same final path — the second export overwrites the first
rather than producing a distinct name. -/
theorem c3_same_second_collision :
    (save_highlight [0] "20260101_120000" (⟨true, fun _ => true⟩ : Encoder)).fileWritten =
      some (savedFilepath "20260101_120000", [0]) ∧
    (save_highlight [1] "20260101_120000" (⟨true, fun _ => true⟩ : Encoder)).fileWritten =
      some (savedFilepath "20260101_120000", [1]) ∧
    savedFilename "20260101_120000" = "highlight_20260101_120000.avi" :=
  ⟨rfl, rfl, rfl⟩

/-- Sleep executed at the end of each successful recording-loop iteration,
as a function of the measured read-plus-push duration: the script always
sleeps the fixed period time.sleep(1.0 / self.FPS), independent of the
measured duration. -/
def iterSleep (_elapsed : ℚ) : ℚ := 1 / (FPS : ℚ)

/-- Modelled from the spec for comparison with iterSleep: sleep only the
remainder of the period after the measured iteration duration, and nothing
when the iteration already took at least one period. -/
def cadenceSleep (elapsed : ℚ) : ℚ := max 0 (1 / (FPS : ℚ) - elapsed)

/-- C6 counterexample: on an iteration that already took a full period, the
script still sleeps the whole period 1/FPS, while the claimed cadence
correction would sleep nothing — the code unconditionally adds a full
period on top of the iteration duration. -/
theorem c6_fixed_sleep_counterexample :
    iterSleep (1 / (FPS : ℚ)) = 1 / (FPS : ℚ) ∧
    cadenceSleep (1 / (FPS : ℚ)) = 0 ∧
    iterSleep (1 / (FPS : ℚ)) ≠ cadenceSleep (1 / (FPS : ℚ)) := by
  refine ⟨rfl, ?_, ?_⟩
  · unfold cadenceSleep
    simp
  · unfold iterSleep cadenceSleep
    simp
    norm_num [FPS]

/-- C6 amended: the loop sleeps the fixed full period 1/FPS after every
successful iteration regardless of the measured duration, so every
iteration with positive duration takes strictly longer than one period —
a systematic undershoot of the target frame rate. -/
theorem c6_fixed_sleep_amended (d : ℚ) (h : 0 < d) :
    iterSleep d = 1 / (FPS : ℚ) ∧ 1 / (FPS : ℚ) < d + iterSleep d := by
  refine ⟨rfl, ?_⟩
  unfold iterSleep
  linarith

/-- Witness for c6_fixed_sleep_amended at a concrete half-period duration. -/
theorem c6_fixed_sleep_amended_witness :
    iterSleep (1 / 30) = 1 / (FPS : ℚ) ∧ 1 / (FPS : ℚ) < 1 / 30 + iterSleep (1 / 30) :=
  c6_fixed_sleep_amended (1 / 30) (by norm_num)

/-- Outcome of self.camera.read(): either a frame with ret true, or ret
false. -/
inductive ReadResult (α : Type) where
  | ok : α → ReadResult α
  | fail : ReadResult α

/-- State carried across recording-loop iterations: the frame buffer and
the local frame_count counter. -/
structure LoopState (α : Type) where
  frame_buffer : List α
  frame_count : Nat

/-- One iteration of the recording_loop body (src/main.py lines 104-126).
On a failed read the script prints a warning and continues: the state is
unchanged and the loop keeps running.  On a successful read the frame is
pushed and frame_count incremented.  The Bool is whether the loop proceeds
to another iteration: the loop stops only when self.recording is cleared
externally, so no read outcome ever makes it exit. -/
def recordingStep (cap : Nat) (s : LoopState α) (r : ReadResult α) :
    LoopState α × Bool :=
  match r with
  | ReadResult.fail => (s, true)
  | ReadResult.ok fr => (⟨pushFrame cap s.frame_buffer fr, s.frame_count + 1⟩, true)

/-- Running the recording loop over a finite prefix of read outcomes,
stopping early if an iteration ever reported that the loop exits. -/
def runLoop (cap : Nat) (s : LoopState α) : List (ReadResult α) → LoopState α × Bool
  | [] => (s, true)
  | r :: rs =>
    if (recordingStep cap s r).2 then runLoop cap (recordingStep cap s r).1 rs
    else recordingStep cap s r

theorem runLoop_replicate_fail (cap : Nat) (s : LoopState α) (n : Nat) :
    runLoop cap s (List.replicate n (ReadResult.fail)) = (s, true) := by
  induction n with
  | zero => rfl
  | succ n ih =>
    rw [List.replicate_succ]
    show runLoop cap s (ReadResult.fail :: List.replicate n ReadResult.fail) = (s, true)
    rw [runLoop]
    exact ih

/-- C4 counterexample: after one hundred consecutive read failures — a
permanently failed source — the recording loop is still running (second
component true) with its state untouched; the code never classifies a
failure as permanent and never exits the loop on one, contrary to the
claimed transient/permanent classification with loop exit. -/
theorem c4_no_permanent_exit_counterexample :
    runLoop max_buffer_size (⟨[5], 1⟩ : LoopState Nat)
      (List.replicate 100 ReadResult.fail) = (⟨[5], 1⟩, true) :=
  runLoop_replicate_fail max_buffer_size ⟨[5], 1⟩ 100

/-- C4 amended: every read failure is handled the same way — a warning is
logged, nothing is pushed, and the loop retries on the next iteration, never
exiting; hence a permanently failing source halts buffer growth without
crashing (the loop keeps spinning with an unchanged buffer) and a subsequent
export of the frames still buffered succeeds. -/
theorem c4_transient_only_amended (s : LoopState α) (n : Nat) (ts : String)
    (enc : Encoder) (h1 : s.frame_buffer ≠ []) (h2 : enc.opens = true) :
    runLoop max_buffer_size s (List.replicate n ReadResult.fail) = (s, true) ∧
    (save_highlight s.frame_buffer ts enc).result =
      SaveResult.saved s.frame_buffer.length (reportedDuration s.frame_buffer.length) := by
  refine ⟨runLoop_replicate_fail max_buffer_size s n, ?_⟩
  have h0 : ¬ s.frame_buffer.length = 0 := by
    simpa [List.length_eq_zero] using h1
  unfold save_highlight
  rw [if_neg h0, if_neg (by simp [h2])]

/-- Witness for c4_transient_only_amended: a one-frame buffer survives three
consecutive read failures and exports successfully. -/
theorem c4_transient_only_amended_witness :
    runLoop max_buffer_size (⟨[7], 1⟩ : LoopState Nat)
      (List.replicate 3 ReadResult.fail) = (⟨[7], 1⟩, true) ∧
    (save_highlight [7] "t" (⟨true, fun _ => true⟩ : Encoder)).result =
      SaveResult.saved 1 (reportedDuration 1) :=
  c4_transient_only_amended ⟨[7], 1⟩ 3 "t" ⟨true, fun _ => true⟩ (by simp) rfl

/-- Process-level recorder state touched by stop_recording: the frame
buffer, the recording flag, whether the camera handle is held, and whether
GPIO is configured. -/
structure RecorderState (α : Type) where
  frame_buffer : List α
  recording : Bool
  camera : Bool
  gpio_active : Bool

/-- Shallow embedding of stop_recording (src/main.py lines 176-185): clears
self.recording, releases the camera, calls GPIO.cleanup(); the frame buffer
is never touched. -/
def stop_recording (s : RecorderState α) : RecorderState α :=
  ⟨s.frame_buffer, false, false, false⟩

/-- C10: stopping the recorder only clears the recording flag and releases
the camera and GPIO resources; the frame buffer is unchanged, so an export
after stop behaves exactly as an export of the pre-stop buffer. -/
theorem c10_stop_preserves_buffer (s : RecorderState α) (ts : String) (enc : Encoder) :
    (stop_recording s).frame_buffer = s.frame_buffer ∧
    (stop_recording s).recording = false ∧
    (stop_recording s).camera = false ∧
    (stop_recording s).gpio_active = false ∧
    save_highlight (stop_recording s).frame_buffer ts enc =
      save_highlight s.frame_buffer ts enc :=
  ⟨rfl, rfl, rfl, rfl, rfl⟩

end RallyReels
